import Mathlib

/-!
Shallow embedding of `src/music_player.py`, a single-file Streamlit music
player.  The parts the claims are about are:

* `get_metadata` (lines 24-82): tag extraction with defaults and a
  try/except/finally structure;
* `fetch_url_content` (lines 92-104): HTTP fetch wrapper;
* the sidebar upload handler (lines 170-188) and the "Add from URL"
  handler (lines 193-211);
* the sleep-timer button handlers (lines 220-232) and the per-render
  expiry poll (lines 355-362);
* the Previous / Next button handlers (lines 325-345).

Collaborator calls (mutagen tag parsing, the HTTP request, the random
number generator) are modelled as explicit oracle parameters; Streamlit
message calls (st.success, st.warning, st.error, st.info, st.debug) are
modelled as emitted `UIMsg` values; `st.session_state` is the explicit
record `PlayerState` threaded through each handler.
-/

/-- Messages surfaced through Streamlit: st.success, st.warning, st.error,
st.info, and the st.debug call at line 78 of music_player.py. -/
inductive UIMsg where
  | success
  | warning
  | error
  | info
  | debugLog
deriving Repr, DecidableEq

/-- Index of the last occurrence of a dot in a character list,
`none` when there is no dot. -/
def lastDotPos : List Char → Option Nat
  | [] => none
  | c :: cs =>
      match lastDotPos cs with
      | some i => some (i + 1)
      | none => if c = '.' then some 0 else none

/-- `os.path.splitext(s)[0]` for a bare filename (no path separators,
which is what both call sites pass): the extension starts at the last
dot, except that a run of dots at the very start of the name carries no
extension (so `.bashrc` has no extension). -/
def splitextRoot (s : String) : String :=
  match lastDotPos s.data with
  | none => s
  | some p => if (s.data.take p).any (fun c => c ≠ '.') then ⟨s.data.take p⟩ else s

/-- The normalized tag record built by `get_metadata` (the dict literal at
lines 26-30).  Cover art bytes are abstracted as a list of byte values. -/
structure Metadata where
  title : String
  artist : String
  album : String
  duration : ℤ
  art : Option (List ℕ)
deriving Repr, DecidableEq

/-- The dict literal at lines 26-30: every field starts populated with its
default.  The title default is `os.path.splitext(filename)[0] if filename
else "Unknown Title"`. -/
def defaultMeta (filename : String) : Metadata :=
  { title := if filename ≠ "" then splitextRoot filename else "Unknown Title"
    artist := "Unknown Artist"
    album := "Unknown Album"
    duration := 0
    art := none }

/-- Kind of Python exception escaping the parsing body: the specifically
caught `ID3NoHeaderError` (line 75) or any other `Exception` (line 77). -/
inductive ExKind where
  | id3NoHeader
  | other
deriving Repr, DecidableEq

/-- Outcome of the mutagen collaborator calls inside the try block
(lines 31-74), abstracted as an oracle:

* `raiseID3NoHeader`: the parser constructor raised `ID3NoHeaderError`
  before any field of the dict was overwritten;
* `raiseOther`: some other exception was raised before line 52, so the
  dict is still all defaults;
* `raiseMidway d`: the duration assignment at line 52 succeeded with
  value `d`, then a later tag access raised an ordinary exception;
* `noAudio`: the parse returned a falsy object (line 49), so the default
  dict is returned as-is (line 50);
* `ok d t a al ar`: parse succeeded with stream duration `d` and with
  each optional tag field present (`some`) or absent (`none`); lines
  54-73 overwrite exactly the present fields. -/
inductive ParseOutcome where
  | raiseID3NoHeader
  | raiseOther
  | raiseMidway (d : ℤ)
  | noAudio
  | ok (d : ℤ) (t a al : Option String) (ar : Option (List ℕ))
deriving Repr, DecidableEq

/-- A seekable-or-not byte stream with a cursor position, the state of the
`file_obj` argument that `get_metadata` mutates via `seek`. -/
structure AudioStream where
  seekable : Bool
  pos : ℕ
deriving Repr, DecidableEq

/-- The try block of `get_metadata` (lines 31-74) acting on the
initially-defaulted dict `m0`.  A raised exception carries the dict as
mutated so far, because the Python dict is updated in place and the
except handlers return that same dict. -/
def metadataBody (outcome : ParseOutcome) (m0 : Metadata) :
    Except (ExKind × Metadata) Metadata :=
  match outcome with
  | .raiseID3NoHeader => .error (.id3NoHeader, m0)
  | .raiseOther => .error (.other, m0)
  | .raiseMidway d => .error (.other, { m0 with duration := d })
  | .noAudio => .ok m0
  | .ok d t a al ar =>
      .ok { title := t.getD m0.title
            artist := a.getD m0.artist
            album := al.getD m0.album
            duration := d
            art := ar }

/-- `get_metadata(file_obj, filename)` (lines 24-82).  `parserEndPos` is
where the collaborator's reads left the stream cursor.  The finally block
(lines 79-81) seeks back to 0 whenever the stream is seekable, on every
path (normal return, early return at line 50, and both except handlers).
Returns the metadata dict, the final stream state, and the emitted
messages: `ID3NoHeaderError` produces the st.warning at line 76, any
other exception the st.debug call at line 78. -/
def get_metadata (outcome : ParseOutcome) (parserEndPos : ℕ)
    (filename : String) (s : AudioStream) :
    Metadata × AudioStream × List UIMsg :=
  let m0 := defaultMeta filename
  let finalStream : AudioStream :=
    if s.seekable then { s with pos := 0 } else { s with pos := parserEndPos }
  match metadataBody outcome m0 with
  | .ok m => (m, finalStream, [])
  | .error (.id3NoHeader, m) => (m, finalStream, [.warning])
  | .error (.other, m) => (m, finalStream, [.debugLog])

/-- The `'type'` field of a playlist item: `'file'` for uploads,
`'url'` for remote tracks. -/
inductive SourceKind where
  | file
  | url
deriving Repr, DecidableEq

/-- The `'source'` field of a playlist item: an in-memory byte buffer
(`io.BytesIO`) for uploads, the URL string for remote tracks. -/
inductive TrackSource where
  | bytes (b : List ℕ)
  | urlstr (u : String)
deriving Repr, DecidableEq

/-- One playlist item as appended at lines 177-182 / 200-205. -/
structure TrackEntry where
  source : TrackSource
  metadata : Metadata
  kind : SourceKind
  name : String
deriving Repr, DecidableEq

/-- The `st.session_state` fields this program uses (the
`default_states` dict at lines 107-116, plus `set_sleep_minutes`,
which is created by the sleep-timer handlers and read with default 0
at line 220).  Timestamps are integers (seconds since an epoch);
`current_track_index` is an integer so that the sentinel -1 is
representable. -/
structure PlayerState where
  playlist : List TrackEntry
  current_track_index : ℤ
  sleep_timer_active : Bool
  sleep_timer_end_time : Option ℤ
  autoplay_next : Bool
  shuffle_mode : Bool
  loop_current_track : Bool
  set_sleep_minutes : ℤ
deriving Repr, DecidableEq

/-- The session defaults (lines 107-116). -/
def initialPlayerState : PlayerState :=
  { playlist := []
    current_track_index := -1
    sleep_timer_active := false
    sleep_timer_end_time := none
    autoplay_next := true
    shuffle_mode := false
    loop_current_track := false
    set_sleep_minutes := 0 }

/-- One iteration of the upload loop (lines 172-183): the duplicate
check at line 173 tests `item['name'] == uploaded_file.name` over every
playlist item, with no restriction on the item's `'type'`.  Returns the
new state and whether an entry was appended. -/
def addOneLocalFile (s : PlayerState) (name : String) (content : List ℕ)
    (md : Metadata) : PlayerState × Bool :=
  if s.playlist.any (fun it => it.name = name) then (s, false)
  else
    ({ s with playlist :=
        s.playlist ++ [{ source := .bytes content, metadata := md,
                         kind := .file, name := name }] }, true)

/-- The whole upload handler (lines 170-188): fold the per-file step over
the uploaded batch, then, when at least one file was added, emit the
st.success message and auto-select index 0 if nothing was selected
(lines 184-187).  Each batch element carries the filename, the raw
bytes, and the metadata that `get_metadata` produced for it. -/
def uploadFilesHandler (s : PlayerState)
    (files : List (String × List ℕ × Metadata)) : PlayerState × List UIMsg :=
  let step := fun (acc : PlayerState × ℕ) (f : String × List ℕ × Metadata) =>
    let r := addOneLocalFile acc.1 f.1 f.2.1 f.2.2
    (r.1, acc.2 + (if r.2 then 1 else 0))
  let r := files.foldl step (s, 0)
  if r.2 > 0 then
    let s2 :=
      if r.1.current_track_index = -1 ∧ r.1.playlist ≠ [] then
        { r.1 with current_track_index := 0 }
      else r.1
    (s2, [.success])
  else (r.1, [])

/-- The filename derivation of `fetch_url_content` (lines 98-100):
`url.split('/')[-1].split('?')[0]`, falling back to `"audio_from_url"`
when that is empty. -/
def urlFilename (url : String) : String :=
  let f := (((url.splitOn "/").getLastD "").splitOn "?").headD ""
  if f = "" then "audio_from_url" else f

/-- `fetch_url_content(url)` (lines 92-104).  The HTTP collaborator is
the oracle `http`: `some content` for a 2xx response body, `none` for a
`RequestException` (connection error, the 10-second timeout, or the
non-success status raised by `raise_for_status` at line 96).  On failure
the except handler emits st.error (line 103) and returns `(None, None)`. -/
def fetch_url_content (http : Option (List ℕ)) (url : String) :
    Option (List ℕ × String) × List UIMsg :=
  match http with
  | some content => (some (content, urlFilename url), [])
  | none => (none, [.error])

/-- The "Add from URL" handler (lines 193-211), taken after the button
press with a non-empty `url`.  The duplicate check at line 194 tests
`item['source'] == url_input` over items whose `'type'` is `'url'` and
emits the st.warning at line 211 on a hit; otherwise the URL is fetched,
and on fetch success the metadata is extracted (its parse oracle is
`outcome`/`parserEndPos`), the entry appended, st.success emitted, and
index 0 auto-selected when nothing was selected (lines 207-208).  On
fetch failure nothing changes (the error was already emitted inside
`fetch_url_content`). -/
def addFromURLHandler (s : PlayerState) (url : String)
    (http : Option (List ℕ)) (outcome : ParseOutcome) (parserEndPos : ℕ) :
    PlayerState × List UIMsg :=
  if s.playlist.any (fun it => it.kind = .url ∧ it.source = .urlstr url) then
    (s, [.warning])
  else
    match fetch_url_content http url with
    | (some cf, msgs) =>
        let md := (get_metadata outcome parserEndPos cf.2 ⟨true, 0⟩).1
        let entry : TrackEntry :=
          { source := .urlstr url, metadata := md, kind := .url,
            name := if cf.2 ≠ "" then cf.2 else url }
        let s1 := { s with playlist := s.playlist ++ [entry] }
        let s2 :=
          if s1.current_track_index = -1 ∧ s1.playlist ≠ [] then
            { s1 with current_track_index := 0 }
          else s1
        (s2, msgs ++ [.success])
    | (none, msgs) => (s, msgs)

/-- The "Start Sleep Timer" button handler (lines 223-227).  The button
is disabled exactly when the minutes input is 0 (line 223), so a click
with 0 is impossible and modelled as a no-op; otherwise the handler
unconditionally sets the active flag and the end time, whether or not a
timer is already running. -/
def startSleepTimer (s : PlayerState) (now minutes : ℤ) :
    PlayerState × List UIMsg :=
  if minutes = 0 then (s, [])
  else
    ({ s with sleep_timer_active := true
              sleep_timer_end_time := some (now + minutes * 60)
              set_sleep_minutes := minutes }, [.success])

/-- The "Cancel Sleep Timer" button handler (lines 228-232); the button
is disabled when no timer is active. -/
def cancelSleepTimer (s : PlayerState) : PlayerState × List UIMsg :=
  if s.sleep_timer_active then
    ({ s with sleep_timer_active := false
              sleep_timer_end_time := none
              set_sleep_minutes := 0 }, [.info])
  else (s, [])

/-- The per-render sleep-timer expiry poll (lines 355-362): when the
timer is active with an end time set and `now` has reached it, clear the
timer, set `current_track_index = -1`, reset the remembered minutes, and
emit the st.warning at line 361 — all in the same poll. -/
def tickSleepTimer (s : PlayerState) (now : ℤ) : PlayerState × List UIMsg :=
  if s.sleep_timer_active then
    match s.sleep_timer_end_time with
    | some t =>
        if t ≤ now then
          ({ s with sleep_timer_active := false
                    sleep_timer_end_time := none
                    current_track_index := -1
                    set_sleep_minutes := 0 }, [.warning])
        else (s, [])
    | none => (s, [])
  else (s, [])

/-- The Previous button handler (lines 325-330): inside the non-empty
guard, decrement the index when it is positive, else wrap to the last
index. -/
def prevButton (s : PlayerState) : PlayerState :=
  if s.playlist ≠ [] then
    if s.current_track_index > 0 then
      { s with current_track_index := s.current_track_index - 1 }
    else
      { s with current_track_index := (s.playlist.length : ℤ) - 1 }
  else s

/-- The serial branch of the Next button handler (lines 341-345):
advance by one, wrapping to 0 from the last index. -/
def nextSerialStep (s : PlayerState) : PlayerState :=
  if s.current_track_index < (s.playlist.length : ℤ) - 1 then
    { s with current_track_index := s.current_track_index + 1 }
  else
    { s with current_track_index := 0 }

/-- The shuffle rejection loop (lines 336-338): `new_idx` starts equal
to `current_track_index`, so the loop draws from the random stream until
a draw differs from the current index and returns that draw.  `draws i`
models the i-th `random.randint(0, len(playlist) - 1)` result; `fuel`
bounds the number of iterations the embedding unfolds, with `none`
standing for the loop still running (the Python loop has no bound). -/
def rejectionLoop (cur : ℤ) (draws : ℕ → ℕ) : ℕ → ℕ → Option ℕ
  | 0, _ => none
  | fuel + 1, i =>
      if (draws i : ℤ) = cur then rejectionLoop cur draws fuel (i + 1)
      else some (draws i)

/-- The Next button handler (lines 332-345).  Inside the non-empty
guard: with shuffle on and more than one track, run the rejection loop
and install its result (`none` = the loop has not terminated within
`fuel` iterations); with shuffle on and a single track, do nothing
(line 340); with shuffle off, take the serial branch. -/
def nextButton (s : PlayerState) (draws : ℕ → ℕ) (fuel : ℕ) :
    Option PlayerState :=
  if s.playlist ≠ [] then
    if s.shuffle_mode then
      if 1 < s.playlist.length then
        (rejectionLoop s.current_track_index draws fuel 0).map
          (fun v => { s with current_track_index := (v : ℤ) })
      else some s
    else some (nextSerialStep s)
  else some s

/-- A sample remote-track playlist entry named `a.mp3`. -/
def urlTrack : TrackEntry :=
  { source := .urlstr "http://x/a.mp3"
    metadata := defaultMeta "a.mp3"
    kind := .url
    name := "a.mp3" }

/-- A sample uploaded-file playlist entry named `b.mp3`. -/
def fileTrack : TrackEntry :=
  { source := .bytes [1, 2]
    metadata := defaultMeta "b.mp3"
    kind := .file
    name := "b.mp3" }

/-- A session whose playlist holds the single remote track `a.mp3`. -/
def stateWithUrlTrack : PlayerState :=
  { initialPlayerState with playlist := [urlTrack], current_track_index := 0 }

/-- A session whose playlist holds the single uploaded file `b.mp3`. -/
def stateWithFileTrack : PlayerState :=
  { initialPlayerState with playlist := [fileTrack], current_track_index := 0 }

/-- A session with two tracks, serial (non-shuffle) mode, first selected. -/
def twoTrackState : PlayerState :=
  { initialPlayerState with playlist := [fileTrack, urlTrack], current_track_index := 0 }

/-- A session with two tracks, shuffle on, first selected. -/
def shuffleState : PlayerState :=
  { initialPlayerState with playlist := [fileTrack, urlTrack]
                            current_track_index := 0
                            shuffle_mode := true }

/-- A session with a sleep timer already running (deadline at time 1000). -/
def activeTimerState : PlayerState :=
  { initialPlayerState with sleep_timer_active := true
                            sleep_timer_end_time := some 1000 }

/-- Claim C1 (amended): for every parse outcome and filename,
`get_metadata` returns (never raises) a record with all five fields
populated — parsed values where the parse provided them, defaults
otherwise — where the default title is the filename without its
extension for a NON-EMPTY filename and `"Unknown Title"` for an empty
one, the other defaults are `"Unknown Artist"`, `"Unknown Album"`,
duration 0 and absent cover art; the missing-ID3-header failure is
logged as a warning, while any other parsing failure is caught and
logged as a DEBUG message (still non-fatal, still yielding the
defaulted record). -/
theorem get_metadata_total_defaults (pos : ℕ) (fn : String)
    (st : AudioStream) (d : ℤ) (t a al : Option String)
    (ar : Option (List ℕ)) :
    (get_metadata .raiseID3NoHeader pos fn st).1 = defaultMeta fn ∧
    (get_metadata .raiseID3NoHeader pos fn st).2.2 = [UIMsg.warning] ∧
    (get_metadata .raiseOther pos fn st).1 = defaultMeta fn ∧
    (get_metadata .raiseOther pos fn st).2.2 = [UIMsg.debugLog] ∧
    (get_metadata (.raiseMidway d) pos fn st).1 =
      { defaultMeta fn with duration := d } ∧
    (get_metadata (.raiseMidway d) pos fn st).2.2 = [UIMsg.debugLog] ∧
    (get_metadata .noAudio pos fn st).1 = defaultMeta fn ∧
    (get_metadata (.ok d t a al ar) pos fn st).1 =
      { title := t.getD (defaultMeta fn).title
        artist := a.getD "Unknown Artist"
        album := al.getD "Unknown Album"
        duration := d
        art := ar } ∧
    (defaultMeta fn).title =
      (if fn ≠ "" then splitextRoot fn else "Unknown Title") ∧
    (defaultMeta fn).artist = "Unknown Artist" ∧
    (defaultMeta fn).album = "Unknown Album" ∧
    (defaultMeta fn).duration = 0 ∧
    (defaultMeta fn).art = none :=
  ⟨rfl, rfl, rfl, rfl, rfl, rfl, rfl, rfl, rfl, rfl, rfl, rfl, rfl⟩

/-- Claim C1, counterexample to the claim as stated: at the empty
filename (with any parsing failure), the default title produced by
`get_metadata` is `"Unknown Title"`, not the filename without extension
(which is `""`); moreover the generic failure is logged via the debug
call, not as a warning. -/
theorem get_metadata_empty_filename_cex :
    (get_metadata .raiseOther 0 "" ⟨true, 3⟩).1.title = "Unknown Title" ∧
    splitextRoot "" = "" ∧
    ("Unknown Title" : String) ≠ "" ∧
    (get_metadata .raiseOther 0 "" ⟨true, 3⟩).2.2 = [UIMsg.debugLog] ∧
    [UIMsg.debugLog] ≠ [UIMsg.warning] := by
  refine ⟨rfl, rfl, by decide, rfl, by decide⟩

/-- Claim C9: for every seekable input stream, on every path (success,
the falsy-parse early return, and both exception handlers),
`get_metadata` leaves the stream position at 0. -/
theorem get_metadata_resets_stream (outcome : ParseOutcome) (pos : ℕ)
    (fn : String) (st : AudioStream) (h : st.seekable = true) :
    (get_metadata outcome pos fn st).2.1.pos = 0 ∧
    (get_metadata outcome pos fn st).2.1.seekable = st.seekable := by
  cases outcome <;> simp [get_metadata, metadataBody, h]

/-- Witness for C9 at a concrete stream that starts at position 7. -/
theorem get_metadata_resets_stream_witness :
    (⟨true, 7⟩ : AudioStream).seekable = true ∧
    ((get_metadata .noAudio 5 "a.mp3" ⟨true, 7⟩).2.1.pos = 0 ∧
     (get_metadata .noAudio 5 "a.mp3" ⟨true, 7⟩).2.1.seekable = true) :=
  ⟨rfl, get_metadata_resets_stream .noAudio 5 "a.mp3" ⟨true, 7⟩ rfl⟩

/-- Claim C2 (amended): adding a local file whose name is already the
name of ANY existing playlist entry — of either kind, since the check at
line 173 ignores the entry's type — is a silent no-op: the state is
unchanged and no message (in particular no warning) is emitted. -/
theorem addLocalFile_duplicate_any_kind (s : PlayerState) (name : String)
    (content : List ℕ) (md : Metadata)
    (h : ∃ t ∈ s.playlist, t.name = name) :
    uploadFilesHandler s [(name, content, md)] = (s, []) := by
  simp [uploadFilesHandler, addOneLocalFile, h]

/-- Claim C2, counterexample to the claim as stated: a playlist holding
only a RemoteURL entry named `a.mp3`; adding a local file also named
`a.mp3` appends nothing (the handler returns the state unchanged),
whereas the claim says a local file sharing its name with a RemoteURL
entry is still appended. -/
theorem addLocalFile_url_name_clash_cex :
    stateWithUrlTrack.playlist.length = 1 ∧
    urlTrack.kind = SourceKind.url ∧
    urlTrack.name = "a.mp3" ∧
    uploadFilesHandler stateWithUrlTrack [("a.mp3", [0], defaultMeta "a.mp3")]
      = (stateWithUrlTrack, []) := by
  refine ⟨rfl, rfl, rfl, by decide⟩

/-- Witness for C2 (amended) at a concrete one-file playlist. -/
theorem addLocalFile_duplicate_any_kind_witness :
    (∃ t ∈ stateWithFileTrack.playlist, t.name = "b.mp3") ∧
    uploadFilesHandler stateWithFileTrack [("b.mp3", [3], defaultMeta "b.mp3")]
      = (stateWithFileTrack, []) := by
  have h : ∃ t ∈ stateWithFileTrack.playlist, t.name = "b.mp3" := by decide
  exact ⟨h, addLocalFile_duplicate_any_kind stateWithFileTrack "b.mp3" [3]
    (defaultMeta "b.mp3") h⟩

/-- Claim C3 (amended): `startSleepTimer` is a no-op at 0 minutes (the
start button is disabled there), and for any non-zero minutes a click
activates the timer and sets the deadline to `now + minutes` — also when
a timer is already active, in which case the existing deadline is
REPLACED rather than kept; the playlist and current index are never
touched. -/
theorem startSleepTimer_spec (s : PlayerState) (now minutes : ℤ)
    (h : minutes ≠ 0) :
    startSleepTimer s now 0 = (s, []) ∧
    (startSleepTimer s now minutes).1.sleep_timer_active = true ∧
    (startSleepTimer s now minutes).1.sleep_timer_end_time =
      some (now + minutes * 60) ∧
    (startSleepTimer s now minutes).1.playlist = s.playlist ∧
    (startSleepTimer s now minutes).1.current_track_index =
      s.current_track_index := by
  simp [startSleepTimer, h]

/-- Claim C3, counterexample to the claim as stated: with a timer
already active (deadline 1000), clicking Start with 5 minutes at time 0
replaces the deadline with 300, whereas the claim says starting again
with an active timer does not replace the deadline. -/
theorem startSleepTimer_replaces_deadline_cex :
    activeTimerState.sleep_timer_active = true ∧
    activeTimerState.sleep_timer_end_time = some 1000 ∧
    (startSleepTimer activeTimerState 0 5).1.sleep_timer_end_time =
      some 300 ∧
    some (300 : ℤ) ≠ some (1000 : ℤ) := by
  refine ⟨rfl, rfl, by decide, by decide⟩

/-- Witness for C3 (amended) at concrete inputs. -/
theorem startSleepTimer_spec_witness :
    (5 : ℤ) ≠ 0 ∧
    (startSleepTimer initialPlayerState 100 0 = (initialPlayerState, []) ∧
     (startSleepTimer initialPlayerState 100 5).1.sleep_timer_active = true ∧
     (startSleepTimer initialPlayerState 100 5).1.sleep_timer_end_time =
       some (100 + 5 * 60) ∧
     (startSleepTimer initialPlayerState 100 5).1.playlist =
       initialPlayerState.playlist ∧
     (startSleepTimer initialPlayerState 100 5).1.current_track_index =
       initialPlayerState.current_track_index) :=
  ⟨by decide, startSleepTimer_spec initialPlayerState 100 5 (by decide)⟩

/-- Claim C4: when the URL is not already in the playlist (so the fetch
is actually attempted) and the fetch fails — connection error, the
10-second timeout, or a non-success HTTP status raised by
`raise_for_status` — the Add-from-URL handler changes nothing: the
returned state is exactly the input state (in particular the playlist
and `current_track_index` are untouched) and the only message emitted is
the st.error from `fetch_url_content`. -/
theorem addFromURL_fetch_failure_atomic (s : PlayerState) (url : String)
    (outcome : ParseOutcome) (pos : ℕ)
    (h : ∀ t ∈ s.playlist,
      ¬(t.kind = SourceKind.url ∧ t.source = TrackSource.urlstr url)) :
    addFromURLHandler s url none outcome pos = (s, [UIMsg.error]) := by
  have hnd : ¬ ∃ t ∈ s.playlist,
      t.kind = SourceKind.url ∧ t.source = TrackSource.urlstr url := by
    rintro ⟨t, ht, hk⟩
    exact h t ht hk
  simp [addFromURLHandler, fetch_url_content, hnd]

/-- Witness for C4: a playlist holding only a local file, a URL whose
fetch fails. -/
theorem addFromURL_fetch_failure_atomic_witness :
    (∀ t ∈ stateWithFileTrack.playlist,
      ¬(t.kind = SourceKind.url ∧
        t.source = TrackSource.urlstr "http://x/y.mp3")) ∧
    addFromURLHandler stateWithFileTrack "http://x/y.mp3" none .noAudio 0
      = (stateWithFileTrack, [UIMsg.error]) := by
  have h : ∀ t ∈ stateWithFileTrack.playlist,
      ¬(t.kind = SourceKind.url ∧
        t.source = TrackSource.urlstr "http://x/y.mp3") := by decide
  exact ⟨h, addFromURL_fetch_failure_atomic stateWithFileTrack
    "http://x/y.mp3" .noAudio 0 h⟩

/-- Claim C5: when the sleep timer is active with a deadline set and the
per-render poll sees `now` at or past the deadline, the same poll clears
the active flag and the deadline AND sets `current_track_index = -1`,
leaving the playlist itself untouched and emitting the finish warning. -/
theorem tickSleepTimer_expiry (s : PlayerState) (now t : ℤ)
    (ha : s.sleep_timer_active = true)
    (he : s.sleep_timer_end_time = some t) (hn : t ≤ now) :
    (tickSleepTimer s now).1.sleep_timer_active = false ∧
    (tickSleepTimer s now).1.sleep_timer_end_time = none ∧
    (tickSleepTimer s now).1.current_track_index = -1 ∧
    (tickSleepTimer s now).1.playlist = s.playlist ∧
    (tickSleepTimer s now).2 = [UIMsg.warning] := by
  simp [tickSleepTimer, ha, he, hn]

/-- Witness for C5: timer active with deadline 1000, polled at 1001. -/
theorem tickSleepTimer_expiry_witness :
    activeTimerState.sleep_timer_active = true ∧
    activeTimerState.sleep_timer_end_time = some 1000 ∧
    (1000 : ℤ) ≤ 1001 ∧
    ((tickSleepTimer activeTimerState 1001).1.sleep_timer_active = false ∧
     (tickSleepTimer activeTimerState 1001).1.sleep_timer_end_time = none ∧
     (tickSleepTimer activeTimerState 1001).1.current_track_index = -1 ∧
     (tickSleepTimer activeTimerState 1001).1.playlist =
       activeTimerState.playlist ∧
     (tickSleepTimer activeTimerState 1001).2 = [UIMsg.warning]) :=
  ⟨rfl, rfl, by decide,
    tickSleepTimer_expiry activeTimerState 1001 1000 rfl rfl (by decide)⟩

/-- The serial Next step never touches the playlist. -/
theorem nextSerialStep_playlist (s : PlayerState) :
    (nextSerialStep s).playlist = s.playlist := by
  unfold nextSerialStep; split <;> rfl

/-- The serial Next step never touches the shuffle flag. -/
theorem nextSerialStep_shuffle (s : PlayerState) :
    (nextSerialStep s).shuffle_mode = s.shuffle_mode := by
  unfold nextSerialStep; split <;> rfl

/-- On a valid index, the serial Next step is increment modulo the
playlist length. -/
theorem nextSerialStep_current (s : PlayerState)
    (h0 : 0 ≤ s.current_track_index)
    (h1 : s.current_track_index < (s.playlist.length : ℤ)) :
    (nextSerialStep s).current_track_index =
      (s.current_track_index + 1) % (s.playlist.length : ℤ) := by
  unfold nextSerialStep
  by_cases hc : s.current_track_index < (s.playlist.length : ℤ) - 1
  · rw [if_pos hc]
    show s.current_track_index + 1 =
      (s.current_track_index + 1) % (s.playlist.length : ℤ)
    exact (Int.emod_eq_of_lt (by omega) (by omega)).symm
  · rw [if_neg hc]
    show (0 : ℤ) =
      (s.current_track_index + 1) % (s.playlist.length : ℤ)
    have hce : s.current_track_index + 1 = (s.playlist.length : ℤ) := by omega
    rw [hce, Int.emod_self]

/-- With a non-empty playlist and shuffle off, the Next button handler
is exactly the serial step. -/
theorem nextButton_serial (s : PlayerState) (hne : s.playlist ≠ [])
    (hsh : s.shuffle_mode = false) (draws : ℕ → ℕ) (fuel : ℕ) :
    nextButton s draws fuel = some (nextSerialStep s) := by
  simp [nextButton, hne, hsh]

/-- Iterating the serial Next step j times from a valid index keeps the
playlist and advances the index by j modulo the length. -/
theorem nextSerialStep_iterate (j : ℕ) :
    ∀ s : PlayerState, 0 ≤ s.current_track_index →
      s.current_track_index < (s.playlist.length : ℤ) →
      (nextSerialStep^[j] s).playlist = s.playlist ∧
      (nextSerialStep^[j] s).current_track_index =
        (s.current_track_index + j) % (s.playlist.length : ℤ) := by
  induction j with
  | zero =>
      intro s h0 h1
      simpa using (Int.emod_eq_of_lt h0 h1).symm
  | succ k ih =>
      intro s h0 h1
      rw [Function.iterate_succ_apply]
      have hp := nextSerialStep_playlist s
      have hc := nextSerialStep_current s h0 h1
      have hn : (0 : ℤ) < (s.playlist.length : ℤ) := by omega
      have h0' : 0 ≤ (nextSerialStep s).current_track_index := by
        rw [hc]; exact Int.emod_nonneg _ (by omega)
      have h1' : (nextSerialStep s).current_track_index <
          ((nextSerialStep s).playlist.length : ℤ) := by
        rw [hc, hp]; exact Int.emod_lt_of_pos _ hn
      obtain ⟨ihp, ihc⟩ := ih (nextSerialStep s) h0' h1'
      refine ⟨by rw [ihp, hp], ?_⟩
      rw [ihc, hc, hp, Int.emod_add_emod]
      push_cast
      ring_nf

/-- Claim C6: with shuffle disabled and a valid current index, the Next
button is the serial step (advance by one, wrapping to 0 past the last
index), and applying that step `len(playlist)` times returns the index
to its starting value. -/
theorem next_wraparound_law (s : PlayerState)
    (h0 : 0 ≤ s.current_track_index)
    (h1 : s.current_track_index < (s.playlist.length : ℤ))
    (hsh : s.shuffle_mode = false) :
    (∀ draws fuel, nextButton s draws fuel = some (nextSerialStep s)) ∧
    (nextSerialStep^[s.playlist.length] s).current_track_index =
      s.current_track_index := by
  have hne : s.playlist ≠ [] := by
    intro he
    rw [he] at h1
    simp at h1
    omega
  refine ⟨fun d f => nextButton_serial s hne hsh d f, ?_⟩
  obtain ⟨_, hc⟩ := nextSerialStep_iterate s.playlist.length s h0 h1
  have hm : s.current_track_index + (s.playlist.length : ℤ) =
      s.current_track_index + (s.playlist.length : ℤ) * 1 := by ring
  rw [hc, hm, Int.add_mul_emod_self_left, Int.emod_eq_of_lt h0 h1]

/-- Witness for C6 on a concrete two-track playlist with index 0. -/
theorem next_wraparound_law_witness :
    0 ≤ twoTrackState.current_track_index ∧
    twoTrackState.current_track_index < (twoTrackState.playlist.length : ℤ) ∧
    twoTrackState.shuffle_mode = false ∧
    ((∀ draws fuel,
        nextButton twoTrackState draws fuel =
          some (nextSerialStep twoTrackState)) ∧
     (nextSerialStep^[twoTrackState.playlist.length]
        twoTrackState).current_track_index =
       twoTrackState.current_track_index) :=
  ⟨by decide, by decide, rfl,
    next_wraparound_law twoTrackState (by decide) (by decide) rfl⟩

/-- The Previous button handler never touches the playlist. -/
theorem prevButton_playlist (s : PlayerState) :
    (prevButton s).playlist = s.playlist := by
  unfold prevButton; split <;> [skip; rfl]; split <;> rfl

/-- The Previous button handler never touches the shuffle flag. -/
theorem prevButton_shuffle (s : PlayerState) :
    (prevButton s).shuffle_mode = s.shuffle_mode := by
  unfold prevButton; split <;> [skip; rfl]; split <;> rfl

/-- Claim C7: with shuffle disabled, from every valid current index,
Previous (decrement, wrapping from 0 to the last index) followed by the
Next button (which in this mode is the serial step) restores the
original index. -/
theorem prev_next_inverse (s : PlayerState)
    (h0 : 0 ≤ s.current_track_index)
    (h1 : s.current_track_index < (s.playlist.length : ℤ))
    (hsh : s.shuffle_mode = false) :
    (∀ draws fuel, nextButton (prevButton s) draws fuel =
      some (nextSerialStep (prevButton s))) ∧
    (nextSerialStep (prevButton s)).current_track_index =
      s.current_track_index := by
  have hne : s.playlist ≠ [] := by
    intro he
    rw [he] at h1
    simp at h1
    omega
  have hne' : (prevButton s).playlist ≠ [] := by
    rw [prevButton_playlist]; exact hne
  have hsh' : (prevButton s).shuffle_mode = false := by
    rw [prevButton_shuffle]; exact hsh
  refine ⟨fun d f => nextButton_serial _ hne' hsh' d f, ?_⟩
  by_cases hc : s.current_track_index > 0
  · have hpc : (prevButton s).current_track_index =
        s.current_track_index - 1 := by
      unfold prevButton
      rw [if_pos hne, if_pos hc]
    unfold nextSerialStep
    rw [prevButton_playlist, hpc, if_pos (by omega)]
    show s.current_track_index - 1 + 1 = s.current_track_index
    omega
  · have hc0 : s.current_track_index = 0 := by omega
    have hpc : (prevButton s).current_track_index =
        (s.playlist.length : ℤ) - 1 := by
      unfold prevButton
      rw [if_pos hne, if_neg hc]
    unfold nextSerialStep
    rw [prevButton_playlist, hpc, if_neg (by omega), hc0]

/-- Witness for C7 on a concrete two-track playlist with index 0. -/
theorem prev_next_inverse_witness :
    0 ≤ twoTrackState.current_track_index ∧
    twoTrackState.current_track_index < (twoTrackState.playlist.length : ℤ) ∧
    twoTrackState.shuffle_mode = false ∧
    ((∀ draws fuel, nextButton (prevButton twoTrackState) draws fuel =
        some (nextSerialStep (prevButton twoTrackState))) ∧
     (nextSerialStep (prevButton twoTrackState)).current_track_index =
       twoTrackState.current_track_index) :=
  ⟨by decide, by decide, rfl,
    prev_next_inverse twoTrackState (by decide) (by decide) rfl⟩

/-- Whatever the rejection loop returns is one of the draws and differs
from the current index. -/
theorem rejectionLoop_sound (cur : ℤ) (draws : ℕ → ℕ) :
    ∀ fuel i v, rejectionLoop cur draws fuel i = some v →
      (v : ℤ) ≠ cur ∧ ∃ j, v = draws j := by
  intro fuel
  induction fuel with
  | zero =>
      intro i v h
      simp [rejectionLoop] at h
  | succ k ih =>
      intro i v h
      rw [rejectionLoop] at h
      by_cases hd : (draws i : ℤ) = cur
      · rw [if_pos hd] at h
        exact ih (i + 1) v h
      · rw [if_neg hd] at h
        obtain rfl : draws i = v := by simpa using h
        exact ⟨hd, i, rfl⟩

/-- Uniformity of the rejection loop, stated as equivariance: composing
the draw stream with any relabelling of draw values that fixes (exactly)
the current index relabels the loop's result the same way.  With
`perm` ranging over permutations of the valid indices that fix `cur`,
this says the accepted value is distributed exactly as the first
non-`cur` draw, i.e. uniformly over the other indices when the draws are
uniform. -/
theorem rejectionLoop_equivariant (cur : ℤ) (draws perm : ℕ → ℕ)
    (hperm : ∀ x : ℕ, ((perm x : ℕ) : ℤ) = cur ↔ (x : ℤ) = cur) :
    ∀ fuel i, rejectionLoop cur (fun j => perm (draws j)) fuel i =
      (rejectionLoop cur draws fuel i).map perm := by
  intro fuel
  induction fuel with
  | zero => intro i; rfl
  | succ k ih =>
      intro i
      rw [rejectionLoop, rejectionLoop]
      by_cases hd : (draws i : ℤ) = cur
      · rw [if_pos ((hperm (draws i)).mpr hd), if_pos hd]
        exact ih (i + 1)
      · rw [if_neg (fun hc => hd ((hperm (draws i)).mp hc)), if_neg hd]
        rfl

/-- Claim C8: with shuffle enabled — (1) with exactly one track the Next
button leaves the state unchanged; (2) with more than one track, any
result the rejection loop produces is installed as a valid index
different from the index before the call, the playlist itself unchanged;
(3) the accepted draw is equivariant under every relabelling of draw
values fixing the current index, which is the uniformity of the
selection: uniform draws induce a uniform distribution over the valid
indices other than the current one. -/
theorem shuffle_next_spec (s : PlayerState) (hsh : s.shuffle_mode = true) :
    (s.playlist.length = 1 →
      ∀ draws fuel, nextButton s draws fuel = some s) ∧
    (∀ draws fuel s2, 1 < s.playlist.length →
      (∀ i, draws i < s.playlist.length) →
      nextButton s draws fuel = some s2 →
      s2.playlist = s.playlist ∧
      s2.current_track_index ≠ s.current_track_index ∧
      0 ≤ s2.current_track_index ∧
      s2.current_track_index < (s.playlist.length : ℤ)) ∧
    (∀ perm draws fuel i,
      (∀ x : ℕ, ((perm x : ℕ) : ℤ) = s.current_track_index ↔
        (x : ℤ) = s.current_track_index) →
      rejectionLoop s.current_track_index (fun j => perm (draws j)) fuel i =
        (rejectionLoop s.current_track_index draws fuel i).map perm) := by
  refine ⟨?_, ?_, ?_⟩
  · intro hlen draws fuel
    have hne : s.playlist ≠ [] := by
      intro he; rw [he] at hlen; simp at hlen
    simp [nextButton, hne, hsh, hlen]
  · intro draws fuel s2 hlen hrange h
    have hne : s.playlist ≠ [] := by
      intro he; rw [he] at hlen; simp at hlen
    rw [nextButton, if_pos hne] at h
    rw [if_pos hsh, if_pos hlen] at h
    cases hLoop : rejectionLoop s.current_track_index draws fuel 0 with
    | none =>
        rw [hLoop] at h
        simp at h
    | some v =>
        rw [hLoop] at h
        obtain rfl : ({ s with current_track_index := (v : ℤ) } :
            PlayerState) = s2 := by simpa using h
        obtain ⟨hvne, j, hj⟩ := rejectionLoop_sound s.current_track_index
          draws fuel 0 v hLoop
        have hvlt : v < s.playlist.length := by
          rw [hj]; exact hrange j
        refine ⟨rfl, hvne, ?_, ?_⟩
        · show (0 : ℤ) ≤ (v : ℤ)
          exact_mod_cast Nat.zero_le v
        · show (v : ℤ) < (s.playlist.length : ℤ)
          exact_mod_cast hvlt
  · intro perm draws fuel i hperm
    exact rejectionLoop_equivariant s.current_track_index draws perm
      hperm fuel i

/-- Witness for C8 on a concrete two-track shuffle-mode state. -/
theorem shuffle_next_spec_witness :
    shuffleState.shuffle_mode = true ∧
    ((shuffleState.playlist.length = 1 →
       ∀ draws fuel, nextButton shuffleState draws fuel = some shuffleState) ∧
     (∀ draws fuel s2, 1 < shuffleState.playlist.length →
       (∀ i, draws i < shuffleState.playlist.length) →
       nextButton shuffleState draws fuel = some s2 →
       s2.playlist = shuffleState.playlist ∧
       s2.current_track_index ≠ shuffleState.current_track_index ∧
       0 ≤ s2.current_track_index ∧
       s2.current_track_index < (shuffleState.playlist.length : ℤ)) ∧
     (∀ perm draws fuel i,
       (∀ x : ℕ, ((perm x : ℕ) : ℤ) = shuffleState.current_track_index ↔
         (x : ℤ) = shuffleState.current_track_index) →
       rejectionLoop shuffleState.current_track_index
           (fun j => perm (draws j)) fuel i =
         (rejectionLoop shuffleState.current_track_index draws fuel i).map
           perm)) :=
  ⟨rfl, shuffle_next_spec shuffleState rfl⟩

/-- As soon as some draw at or after `start` differs from the current
index, the rejection loop halts within that many iterations. -/
theorem rejectionLoop_halts (cur : ℤ) (draws : ℕ → ℕ) :
    ∀ k start, (draws (start + k) : ℤ) ≠ cur →
      ∃ v, rejectionLoop cur draws (k + 1) start = some v := by
  intro k
  induction k with
  | zero =>
      intro start h
      rw [Nat.add_zero] at h
      exact ⟨draws start, by rw [rejectionLoop, if_neg h]⟩
  | succ m ih =>
      intro start h
      by_cases hd : (draws start : ℤ) = cur
      · have h2 : (draws ((start + 1) + m) : ℤ) ≠ cur := by
          have he : (start + 1) + m = start + (m + 1) := by omega
          rw [he]
          exact h
        obtain ⟨v, hv⟩ := ih (start + 1) h2
        exact ⟨v, by rw [rejectionLoop, if_pos hd]; exact hv⟩
      · exact ⟨draws start, by rw [rejectionLoop, if_neg hd]⟩

/-- Claim C10: with shuffle enabled and at least two tracks, the
rejection-sampling loop of the Next button halts on every draw stream
the embedding models — every stream that ever produces a value other
than the current index (which holds almost surely for uniform draws
over two or more indices): some finite fuel makes the handler return. -/
theorem shuffle_next_terminates (s : PlayerState) (draws : ℕ → ℕ)
    (hsh : s.shuffle_mode = true) (hlen : 1 < s.playlist.length)
    (hd : ∃ i, (draws i : ℤ) ≠ s.current_track_index) :
    ∃ fuel s2, nextButton s draws fuel = some s2 := by
  obtain ⟨i0, hi0⟩ := hd
  have hne : s.playlist ≠ [] := by
    intro he; rw [he] at hlen; simp at hlen
  have h0 : (draws (0 + i0) : ℤ) ≠ s.current_track_index := by
    rw [Nat.zero_add]; exact hi0
  obtain ⟨v, hv⟩ := rejectionLoop_halts s.current_track_index draws i0 0 h0
  refine ⟨i0 + 1, { s with current_track_index := (v : ℤ) }, ?_⟩
  rw [nextButton, if_pos hne, if_pos hsh, if_pos hlen, hv]
  rfl

/-- Witness for C10: two tracks, current index 0, draw stream
alternating 0, 1, 0, 1, ... -/
theorem shuffle_next_terminates_witness :
    shuffleState.shuffle_mode = true ∧
    1 < shuffleState.playlist.length ∧
    (∃ i, (((fun n => n % 2) i : ℕ) : ℤ) ≠
      shuffleState.current_track_index) ∧
    (∃ fuel s2, nextButton shuffleState (fun n => n % 2) fuel = some s2) :=
  ⟨rfl, by decide, ⟨1, by decide⟩,
    shuffle_next_terminates shuffleState (fun n => n % 2) rfl (by decide)
      ⟨1, by decide⟩⟩
